import Mathlib

/-!
# Verification of the SES email-summary controller

Shallow embedding of `src/src/emails/emails.controller.ts`: the schema-driven
decoding of an untyped JSON-like payload into the typed `Root` object graph,
and the extraction step `handleEmail` that projects the first record into a
`ResponseDTO` summary.

The typed classes (`Header`, `CommonHeaders`, `Mail`, `Action`, `Verdict`,
`Receipt`, `Ses`, `Record`, `Root`) and the extraction body are translated
from the source file.  The decoding engine itself (the `json2typescript`
library interpreting the `JsonProperty` schema annotations) is not part of
the repository's sources, so it is modelled from the spec (sections 4.1-4.3);
each such definition is marked `Modelled from the spec:` in its doc comment.
-/

namespace EmailSummary

/-- An untyped JSON-like value: the parsed tree of scalars, lists and
mappings that the decoder walks (spec section 1: the engine assumes such a
tree is already available).  Numbers are modelled as integers, which covers
every numeric field the program reads (`processingTimeMillis`). -/
inductive Json where
  | null
  | bool (b : Bool)
  | num (n : Int)
  | str (s : String)
  | arr (elems : List Json)
  | obj (fields : List (String × Json))

/-- The `Header` class of the source: two text fields defaulting to "". -/
structure Header where
  name : String
  value : String
deriving DecidableEq

/-- The `CommonHeaders` class of the source.  The JSON keys `from` and `to`
are reserved tokens in Lean, so the fields are named `from_` and `to_` here;
they still decode the keys `"from"` and `"to"`. -/
structure CommonHeaders where
  returnPath : String
  from_ : List String
  date : String
  to_ : List String
  messageId : String
  subject : String
deriving DecidableEq

/-- The `Mail` class of the source. -/
structure Mail where
  timestamp : String
  source : String
  messageId : String
  destination : List String
  headersTruncated : Bool
  headers : List Header
  commonHeaders : CommonHeaders
deriving DecidableEq

/-- The `Action` class of the source. -/
structure Action where
  type : String
  topicArn : String
deriving DecidableEq

/-- The `Verdict` class of the source: a single `status` text field. -/
structure Verdict where
  status : String
deriving DecidableEq

/-- The `Receipt` class of the source. -/
structure Receipt where
  timestamp : String
  processingTimeMillis : Int
  recipients : List String
  spamVerdict : Verdict
  virusVerdict : Verdict
  spfVerdict : Verdict
  dkimVerdict : Verdict
  dmarcVerdict : Verdict
  dmarcPolicy : String
  action : Action
deriving DecidableEq

/-- The `Ses` class of the source. -/
structure Ses where
  receipt : Receipt
  mail : Mail
deriving DecidableEq

/-- The `Record` class of the source. -/
structure Record where
  eventVersion : String
  ses : Ses
  eventSource : String
deriving DecidableEq

/-- The `Root` class of the source: the list of records under key
`"Records"`. -/
structure Root where
  Records : List Record
deriving DecidableEq

/-- The `ResponseDTO` class of the source (field names kept verbatim). -/
structure ResponseDTO where
  spam : Bool
  virus : Bool
  dns : Bool
  mes : String
  retrasado : Bool
  emisor : String
  receptor : List String
deriving DecidableEq

/-! ## The decoding engine, modelled from the spec -/

/-- The field list of a mapping; any non-mapping value is treated as the
empty mapping (spec section 4.3: a nested value that is absent or not a
mapping decodes as from an empty mapping). -/
def objFields : Json → List (String × Json)
  | .obj kvs => kvs
  | _ => []

/-- Key lookup in a decoded mapping (first occurrence of the key). -/
def jget (kvs : List (String × Json)) (k : String) : Option Json :=
  kvs.lookup k

/-- Modelled from the spec: the ScalarCoercer (section 4.1) for text fields.
A present, well-typed text value is kept; anything else (absent key, null,
wrong shape) yields the default.  Section 4.1's "convert where unambiguous"
clause is resolved conservatively as: only exact-type matches are kept,
matching section 7's rule that wrong-shape values yield the default. -/
def coerceStr (v : Option Json) (d : String) : String :=
  match v with
  | some (.str s) => s
  | _ => d

/-- Modelled from the spec: the ScalarCoercer for numeric fields. -/
def coerceNum (v : Option Json) (d : Int) : Int :=
  match v with
  | some (.num n) => n
  | _ => d

/-- Modelled from the spec: the ScalarCoercer for boolean fields. -/
def coerceBool (v : Option Json) (d : Bool) : Bool :=
  match v with
  | some (.bool b) => b
  | _ => d

/-- Modelled from the spec: per-element text coercion inside a list field
(section 4.3, `ListOfScalar`): failed elements default in place, they are
not dropped. -/
def coerceStrElem : Json → String
  | .str s => s
  | _ => ""

/-- Modelled from the spec: list-of-text decoding (section 4.3): if the
value is a list, coerce each element independently; if absent or not a
list, produce an empty list. -/
def coerceStrList (v : Option Json) : List String :=
  match v with
  | some (.arr xs) => xs.map coerceStrElem
  | _ => []

/-- Modelled from the spec: list-of-nested decoding (section 4.3): if the
value is a list, decode each element (a non-mapping element decodes as the
all-default instance); if absent or not a list, produce an empty list. -/
def coerceNestedList {α : Type} (dec : Json → α) (v : Option Json) : List α :=
  match v with
  | some (.arr xs) => xs.map dec
  | _ => []

/-- Modelled from the spec: the Decoder (section 4.3) at type `Verdict`,
with the schema of the source's `Verdict` class. -/
def decodeVerdict (v : Json) : Verdict :=
  let kvs := objFields v
  { status := coerceStr (jget kvs "status") "" }

/-- Modelled from the spec: the Decoder at type `Action`. -/
def decodeAction (v : Json) : Action :=
  let kvs := objFields v
  { type := coerceStr (jget kvs "type") ""
    topicArn := coerceStr (jget kvs "topicArn") "" }

/-- Modelled from the spec: the Decoder at type `Header`. -/
def decodeHeader (v : Json) : Header :=
  let kvs := objFields v
  { name := coerceStr (jget kvs "name") ""
    value := coerceStr (jget kvs "value") "" }

/-- Modelled from the spec: the Decoder at type `CommonHeaders`. -/
def decodeCommonHeaders (v : Json) : CommonHeaders :=
  let kvs := objFields v
  { returnPath := coerceStr (jget kvs "returnPath") ""
    from_ := coerceStrList (jget kvs "from")
    date := coerceStr (jget kvs "date") ""
    to_ := coerceStrList (jget kvs "to")
    messageId := coerceStr (jget kvs "messageId") ""
    subject := coerceStr (jget kvs "subject") "" }

/-- Modelled from the spec: the Decoder at type `Mail`. -/
def decodeMail (v : Json) : Mail :=
  let kvs := objFields v
  { timestamp := coerceStr (jget kvs "timestamp") ""
    source := coerceStr (jget kvs "source") ""
    messageId := coerceStr (jget kvs "messageId") ""
    destination := coerceStrList (jget kvs "destination")
    headersTruncated := coerceBool (jget kvs "headersTruncated") false
    headers := coerceNestedList decodeHeader (jget kvs "headers")
    commonHeaders := decodeCommonHeaders ((jget kvs "commonHeaders").getD .null) }

/-- Modelled from the spec: the Decoder at type `Receipt`. -/
def decodeReceipt (v : Json) : Receipt :=
  let kvs := objFields v
  { timestamp := coerceStr (jget kvs "timestamp") ""
    processingTimeMillis := coerceNum (jget kvs "processingTimeMillis") 0
    recipients := coerceStrList (jget kvs "recipients")
    spamVerdict := decodeVerdict ((jget kvs "spamVerdict").getD .null)
    virusVerdict := decodeVerdict ((jget kvs "virusVerdict").getD .null)
    spfVerdict := decodeVerdict ((jget kvs "spfVerdict").getD .null)
    dkimVerdict := decodeVerdict ((jget kvs "dkimVerdict").getD .null)
    dmarcVerdict := decodeVerdict ((jget kvs "dmarcVerdict").getD .null)
    dmarcPolicy := coerceStr (jget kvs "dmarcPolicy") ""
    action := decodeAction ((jget kvs "action").getD .null) }

/-- Modelled from the spec: the Decoder at type `Ses`. -/
def decodeSes (v : Json) : Ses :=
  let kvs := objFields v
  { receipt := decodeReceipt ((jget kvs "receipt").getD .null)
    mail := decodeMail ((jget kvs "mail").getD .null) }

/-- Modelled from the spec: the Decoder at type `Record`. -/
def decodeRecord (v : Json) : Record :=
  let kvs := objFields v
  { eventVersion := coerceStr (jget kvs "eventVersion") ""
    ses := decodeSes ((jget kvs "ses").getD .null)
    eventSource := coerceStr (jget kvs "eventSource") "" }

/-- Modelled from the spec: the Decoder at type `Root` — the model of
`jsonConvert.deserializeObject(body, Root)` in `handleEmail`. -/
def decodeRoot (v : Json) : Root :=
  let kvs := objFields v
  { Records := coerceNestedList decodeRecord (jget kvs "Records") }

/-! ## The month computation, modelled from the spec and ECMAScript

The source computes the long month name of `new Date(mail.timestamp)` via
`toLocaleString` with the default locale.  Date parsing and locale
formatting are ECMAScript built-ins, external to the repository; they are
modelled here restricted to ISO-8601 date/date-time strings (the format of
SES timestamps).  Per ECMA-402, formatting an invalid date yields the
literal string "Invalid Date". -/

/-- Two-digit decimal read of a character pair; `none` unless both are
digits. -/
def twoDigits (a b : Char) : Option Nat :=
  if a.isDigit && b.isDigit then
    some ((a.toNat - 48) * 10 + (b.toNat - 48))
  else none

/-- Modelled from the spec: validity of the time-of-day part after the
`T` of an ISO-8601 date-time (`HH:MM`, optional `:SS`, optional `Z`). -/
def validTimePart : List Char → Bool
  | h1 :: h2 :: ':' :: m1 :: m2 :: rest =>
    match twoDigits h1 h2, twoDigits m1 m2 with
    | some hh, some mm =>
      hh ≤ 23 && mm ≤ 59 &&
        (match rest with
         | [] => true
         | ['Z'] => true
         | ':' :: s1 :: s2 :: rest2 =>
           (match twoDigits s1 s2 with
            | some ss => ss ≤ 59 && (rest2 = [] || rest2 = ['Z'])
            | none => false)
         | _ => false)
    | _, _ => false
  | _ => false

/-- Modelled from the spec: parsing of `mail.timestamp` as a date/time
value, restricted to ISO-8601 `YYYY-MM-DD` with an optional `T`-separated
time part; returns the month number (1-12) on success. -/
def parseTimestampMonth (s : String) : Option Nat :=
  match s.toList with
  | y1 :: y2 :: y3 :: y4 :: '-' :: m1 :: m2 :: '-' :: d1 :: d2 :: rest =>
    if y1.isDigit && y2.isDigit && y3.isDigit && y4.isDigit then
      match twoDigits m1 m2, twoDigits d1 d2 with
      | some mo, some da =>
        if 1 ≤ mo && mo ≤ 12 && 1 ≤ da && da ≤ 31 then
          match rest with
          | [] => some mo
          | 'T' :: timePart => if validTimePart timePart then some mo else none
          | _ => none
        else none
      | _, _ => none
    else none
  | _ => none

/-- Modelled from the spec: the long-form month name of the default locale
(English names, as in the spec's example "January"/"March"). -/
def monthLongName : Nat → String
  | 1 => "January"
  | 2 => "February"
  | 3 => "March"
  | 4 => "April"
  | 5 => "May"
  | 6 => "June"
  | 7 => "July"
  | 8 => "August"
  | 9 => "September"
  | 10 => "October"
  | 11 => "November"
  | 12 => "December"
  | _ => ""

/-- The model of the month computation on source line 168: the long month
name when `ts` parses as a date/time, and the literal string
"Invalid Date" when it does not (ECMA-402 behaviour of formatting an
invalid date — it is a returned string, not a raised error). -/
def jsMonthLong (ts : String) : String :=
  match parseTimestampMonth ts with
  | some mo => monthLongName mo
  | none => "Invalid Date"

/-- The model of the JavaScript idiom splitting a string at "@" and taking
the first segment, used for `emisor` and `receptor` (source lines 170-171):
the characters of `s` up to (excluding) the first at-sign; the whole string
when no at-sign occurs. -/
def jsSplitHead (s : String) : String :=
  String.mk (s.toList.takeWhile (fun c => c ≠ '@'))

/-! ## The extraction step of `handleEmail` (source lines 160-173) -/

/-- The runtime failure the controller can raise: the JavaScript
`TypeError` thrown on line 161 (`record.ses`) when `root.Records[0]` is
`undefined`.  It is the generic property-access-on-undefined error; the
code declares no failure kinds of its own. -/
inductive JsError where
  | typeError
deriving DecidableEq

/-- The summary computation of `handleEmail` on the first record (source
lines 161-173), field for field. -/
def summarize (record : Record) : ResponseDTO :=
  let ses := record.ses
  let receipt := ses.receipt
  let mail := ses.mail
  { spam := receipt.spamVerdict.status == "PASS"
    virus := receipt.virusVerdict.status == "PASS"
    dns := receipt.spfVerdict.status == "PASS" &&
           receipt.dkimVerdict.status == "PASS" &&
           receipt.dmarcVerdict.status == "PASS"
    mes := jsMonthLong mail.timestamp
    retrasado := decide (receipt.processingTimeMillis > 1000)
    emisor := jsSplitHead mail.source
    receptor := mail.destination.map jsSplitHead }

/-- The `handleEmail` endpoint (source lines 156-173): decode the body into
a `Root`, read `Records[0]`, and build the `ResponseDTO`.  When `Records`
is empty, `root.Records[0]` is `undefined` in JavaScript and the very next
line `record.ses` throws a `TypeError`; the model returns that error. -/
def handleEmail (body : Json) : Except JsError ResponseDTO :=
  let root := decodeRoot body
  match root.Records with
  | [] => .error .typeError
  | record :: _ => .ok (summarize record)

/-! ## Re-serialization, modelled from the spec

The spec's idempotence property (section 8) speaks of "a correct
re-serialization of a decoded instance", field for field.  The repository
contains no serializer of its own, so it is modelled from the spec: each
field is written back under its JSON key with its natural representation. -/

/-- Modelled from the spec: field-for-field re-serialization of `Verdict`. -/
def serializeVerdict (x : Verdict) : Json :=
  .obj [("status", .str x.status)]

/-- Modelled from the spec: field-for-field re-serialization of `Action`. -/
def serializeAction (x : Action) : Json :=
  .obj [("type", .str x.type), ("topicArn", .str x.topicArn)]

/-- Modelled from the spec: field-for-field re-serialization of `Header`. -/
def serializeHeader (x : Header) : Json :=
  .obj [("name", .str x.name), ("value", .str x.value)]

/-- Modelled from the spec: field-for-field re-serialization of
`CommonHeaders`. -/
def serializeCommonHeaders (x : CommonHeaders) : Json :=
  .obj [("returnPath", .str x.returnPath),
        ("from", .arr (x.from_.map .str)),
        ("date", .str x.date),
        ("to", .arr (x.to_.map .str)),
        ("messageId", .str x.messageId),
        ("subject", .str x.subject)]

/-- Modelled from the spec: field-for-field re-serialization of `Mail`. -/
def serializeMail (x : Mail) : Json :=
  .obj [("timestamp", .str x.timestamp),
        ("source", .str x.source),
        ("messageId", .str x.messageId),
        ("destination", .arr (x.destination.map .str)),
        ("headersTruncated", .bool x.headersTruncated),
        ("headers", .arr (x.headers.map serializeHeader)),
        ("commonHeaders", serializeCommonHeaders x.commonHeaders)]

/-- Modelled from the spec: field-for-field re-serialization of `Receipt`. -/
def serializeReceipt (x : Receipt) : Json :=
  .obj [("timestamp", .str x.timestamp),
        ("processingTimeMillis", .num x.processingTimeMillis),
        ("recipients", .arr (x.recipients.map .str)),
        ("spamVerdict", serializeVerdict x.spamVerdict),
        ("virusVerdict", serializeVerdict x.virusVerdict),
        ("spfVerdict", serializeVerdict x.spfVerdict),
        ("dkimVerdict", serializeVerdict x.dkimVerdict),
        ("dmarcVerdict", serializeVerdict x.dmarcVerdict),
        ("dmarcPolicy", .str x.dmarcPolicy),
        ("action", serializeAction x.action)]

/-- Modelled from the spec: field-for-field re-serialization of `Ses`. -/
def serializeSes (x : Ses) : Json :=
  .obj [("receipt", serializeReceipt x.receipt),
        ("mail", serializeMail x.mail)]

/-- Modelled from the spec: field-for-field re-serialization of `Record`. -/
def serializeRecord (x : Record) : Json :=
  .obj [("eventVersion", .str x.eventVersion),
        ("ses", serializeSes x.ses),
        ("eventSource", .str x.eventSource)]

/-- Modelled from the spec: field-for-field re-serialization of `Root`. -/
def serializeRoot (x : Root) : Json :=
  .obj [("Records", .arr (x.Records.map serializeRecord))]

/-! ## Claim-side characterizations and concrete payloads -/

/-- Modelled from the spec: the two distinct fatal failure kinds of
section 7 that a caller must be able to distinguish and report. -/
inductive SpecFailure where
  | EmptyRecordSet
  | InvalidTimestamp
deriving DecidableEq

/-- Claim-side characterization (independent of `jsSplitHead`): `p` is the
substring of `s` strictly before the first at-sign — `s` is `p` followed by
a remainder, `p` contains no at-sign, and the remainder is either empty (no
at-sign in `s`) or starts with the first at-sign. -/
def isLocalPart (s p : String) : Prop :=
  ∃ rest : List Char,
    s.toList = p.toList ++ rest ∧
    (∀ c ∈ p.toList, c ≠ '@') ∧
    (∀ c t, rest = c :: t → c = '@')

/-- A payload whose `Records` field is present and an empty list. -/
def bodyEmptyRecords : Json :=
  .obj [("Records", .arr [])]

/-- A payload with a single record that is an empty mapping: every field of
the record, its `mail` object included, is absent. -/
def bodyOneEmptyRecord : Json :=
  .obj [("Records", .arr [.obj []])]

/-- The same first record as `bodyOneEmptyRecord` followed by a second,
different record. -/
def bodyTwoRecords : Json :=
  .obj [("Records", .arr [.obj [], .obj [("eventVersion", .str "2")]])]

/-- A single fully-populated record (every declared field present with a
well-typed value) whose `mail.timestamp` does not parse as a date/time. -/
def recordFullBadTs : Json :=
  .obj [("eventVersion", .str "1.0"),
        ("ses", .obj [
          ("receipt", .obj [
            ("timestamp", .str "2024-03-15T10:00:00Z"),
            ("processingTimeMillis", .num 500),
            ("recipients", .arr [.str "bob@example.com"]),
            ("spamVerdict", .obj [("status", .str "PASS")]),
            ("virusVerdict", .obj [("status", .str "PASS")]),
            ("spfVerdict", .obj [("status", .str "PASS")]),
            ("dkimVerdict", .obj [("status", .str "PASS")]),
            ("dmarcVerdict", .obj [("status", .str "PASS")]),
            ("dmarcPolicy", .str "none"),
            ("action", .obj [("type", .str "SNS"), ("topicArn", .str "arn")])]),
          ("mail", .obj [
            ("timestamp", .str "not-a-date"),
            ("source", .str "alice@example.com"),
            ("messageId", .str "m1"),
            ("destination", .arr [.str "bob@example.com"]),
            ("headersTruncated", .bool false),
            ("headers", .arr [.obj [("name", .str "From"),
                                    ("value", .str "alice@example.com")]]),
            ("commonHeaders", .obj [
              ("returnPath", .str "alice@example.com"),
              ("from", .arr [.str "alice@example.com"]),
              ("date", .str "Fri, 15 Mar 2024"),
              ("to", .arr [.str "bob@example.com"]),
              ("messageId", .str "m1"),
              ("subject", .str "hi")])])]),
        ("eventSource", .str "aws:ses")]

/-- A payload whose single, fully-populated record has an unparseable
`mail.timestamp`. -/
def bodyFullBadTs : Json :=
  .obj [("Records", .arr [recordFullBadTs])]

/-! ## Helper lemmas -/

/-- Decoding a list of re-serialized text values recovers the original
list. -/
theorem coerceStrList_map_str : ∀ xs : List String,
    coerceStrList (some (.arr (xs.map Json.str))) = xs
  | [] => rfl
  | x :: xs => congrArg (List.cons x) (coerceStrList_map_str xs)

/-- Decoding a list of re-serialized nested objects recovers the original
list, given the element-level round trip. -/
theorem coerceNestedList_roundtrip {α : Type} (dec : Json → α) (ser : α → Json)
    (h : ∀ a, dec (ser a) = a) :
    ∀ xs : List α, coerceNestedList dec (some (.arr (xs.map ser))) = xs
  | [] => rfl
  | x :: xs => by
    have hx : coerceNestedList dec (some (.arr ((x :: xs).map ser))) =
        dec (ser x) :: coerceNestedList dec (some (.arr (xs.map ser))) := rfl
    rw [hx, h x, coerceNestedList_roundtrip dec ser h xs]

/-- Round trip at type `Verdict`. -/
theorem decode_serialize_verdict (x : Verdict) :
    decodeVerdict (serializeVerdict x) = x := rfl

/-- Round trip at type `Action`. -/
theorem decode_serialize_action (x : Action) :
    decodeAction (serializeAction x) = x := rfl

/-- Round trip at type `Header`. -/
theorem decode_serialize_header (x : Header) :
    decodeHeader (serializeHeader x) = x := rfl

/-- Round trip at type `CommonHeaders`. -/
theorem decode_serialize_commonHeaders (x : CommonHeaders) :
    decodeCommonHeaders (serializeCommonHeaders x) = x := by
  cases x with
  | mk rp fr d t mid sub =>
    show CommonHeaders.mk rp (coerceStrList (some (.arr (fr.map Json.str)))) d
        (coerceStrList (some (.arr (t.map Json.str)))) mid sub =
      CommonHeaders.mk rp fr d t mid sub
    rw [coerceStrList_map_str, coerceStrList_map_str]

/-- Round trip at type `Mail`. -/
theorem decode_serialize_mail (x : Mail) :
    decodeMail (serializeMail x) = x := by
  cases x with
  | mk ts src mid dest ht hs ch =>
    show Mail.mk ts src mid (coerceStrList (some (.arr (dest.map Json.str)))) ht
        (coerceNestedList decodeHeader (some (.arr (hs.map serializeHeader))))
        (decodeCommonHeaders (serializeCommonHeaders ch)) =
      Mail.mk ts src mid dest ht hs ch
    rw [coerceStrList_map_str,
      coerceNestedList_roundtrip decodeHeader serializeHeader decode_serialize_header,
      decode_serialize_commonHeaders]

/-- Round trip at type `Receipt`. -/
theorem decode_serialize_receipt (x : Receipt) :
    decodeReceipt (serializeReceipt x) = x := by
  cases x with
  | mk ts pm rcp sv vv spf dk dm pol act =>
    show Receipt.mk ts pm (coerceStrList (some (.arr (rcp.map Json.str))))
        (decodeVerdict (serializeVerdict sv)) (decodeVerdict (serializeVerdict vv))
        (decodeVerdict (serializeVerdict spf)) (decodeVerdict (serializeVerdict dk))
        (decodeVerdict (serializeVerdict dm)) pol (decodeAction (serializeAction act)) =
      Receipt.mk ts pm rcp sv vv spf dk dm pol act
    rw [coerceStrList_map_str, decode_serialize_verdict, decode_serialize_verdict,
      decode_serialize_verdict, decode_serialize_verdict, decode_serialize_verdict,
      decode_serialize_action]

/-- Round trip at type `Ses`. -/
theorem decode_serialize_ses (x : Ses) :
    decodeSes (serializeSes x) = x := by
  cases x with
  | mk rcpt ml =>
    show Ses.mk (decodeReceipt (serializeReceipt rcpt)) (decodeMail (serializeMail ml)) =
      Ses.mk rcpt ml
    rw [decode_serialize_receipt, decode_serialize_mail]

/-- Round trip at type `Record`. -/
theorem decode_serialize_record (x : Record) :
    decodeRecord (serializeRecord x) = x := by
  cases x with
  | mk ev s es =>
    show Record.mk ev (decodeSes (serializeSes s)) es = Record.mk ev s es
    rw [decode_serialize_ses]

/-- Round trip at type `Root`. -/
theorem decode_serialize_root (x : Root) :
    decodeRoot (serializeRoot x) = x := by
  cases x with
  | mk rs =>
    show Root.mk (coerceNestedList decodeRecord (some (.arr (rs.map serializeRecord)))) =
      Root.mk rs
    rw [coerceNestedList_roundtrip decodeRecord serializeRecord decode_serialize_record]

/-- The characters of the split head are the at-sign-free prefix of the
input. -/
theorem jsSplitHead_toList (s : String) :
    (jsSplitHead s).toList = s.toList.takeWhile (fun c => c ≠ '@') := rfl

/-- No character of the split head is an at-sign. -/
theorem jsSplitHead_no_at (s : String) :
    ∀ c ∈ (jsSplitHead s).toList, c ≠ '@' := by
  intro c hc
  rw [jsSplitHead_toList] at hc
  simpa using List.mem_takeWhile_imp hc

/-- The first element surviving `dropWhile` falsifies the predicate. -/
theorem dropWhile_cons_head {α : Type} (p : α → Bool) (c : α) (t : List α) :
    ∀ l : List α, l.dropWhile p = c :: t → p c = false := by
  intro l
  induction l with
  | nil => intro h; exact absurd h (by simp)
  | cons a l ih =>
    intro h
    rw [List.dropWhile_cons] at h
    by_cases hpa : p a = true
    · rw [if_pos hpa] at h
      exact ih h
    · rw [if_neg hpa] at h
      obtain ⟨rfl, rfl⟩ := List.cons.injEq .. |>.mp h |>.imp id id
      exact Bool.not_eq_true _ |>.mp hpa

/-- The split head is exactly the substring of the input strictly before
its first at-sign. -/
theorem jsSplitHead_isLocalPart (s : String) : isLocalPart s (jsSplitHead s) := by
  refine ⟨s.toList.dropWhile (fun c => c ≠ '@'), ?_, jsSplitHead_no_at s, ?_⟩
  · rw [jsSplitHead_toList]
    exact (List.takeWhile_append_dropWhile _ _).symm
  · intro c t hct
    have := dropWhile_cons_head (fun c => decide (c ≠ '@')) c t s.toList hct
    simpa using this

/-- Pointwise: every element of the mapped list is the local part of the
corresponding input element, in order. -/
theorem forall2_map_localPart (l : List String) :
    List.Forall₂ isLocalPart l (l.map jsSplitHead) := by
  induction l with
  | nil => exact List.Forall₂.nil
  | cons a t ih => exact List.Forall₂.cons (jsSplitHead_isLocalPart a) ih

/-! ## The formalized claims -/

/-- The property claim C1 asserts of the program: the program's failures
can be reported under the spec's two distinct kinds, with every
empty-`Records` input failing as `EmptyRecordSet` and every
unparseable-timestamp input failing as `InvalidTimestamp` — in particular
the two conditions are distinguishable, not conflated into one generic
failure. -/
def distinctFatalFailureKinds : Prop :=
  ∃ report : JsError → SpecFailure,
    (∀ body : Json, (decodeRoot body).Records = [] →
      ∃ e, handleEmail body = .error e ∧ report e = SpecFailure.EmptyRecordSet) ∧
    (∀ (body : Json) (r : Record) (rest : List Record),
      (decodeRoot body).Records = r :: rest →
      parseTimestampMonth r.ses.mail.timestamp = none →
      ∃ e, handleEmail body = .error e ∧ report e = SpecFailure.InvalidTimestamp)

/-- The core of claim C2 as stated: computing the summary fails (with any
error at all — a fortiori with a distinct `InvalidTimestamp` kind) whenever
the decoded first record's `mail.timestamp` does not parse as a date/time. -/
def invalidTimestampAborts : Prop :=
  ∀ (body : Json) (r : Record) (rest : List Record),
    (decodeRoot body).Records = r :: rest →
    parseTimestampMonth r.ses.mail.timestamp = none →
    ∃ e, handleEmail body = .error e

/-- C1 (counterexample): claim C1 is false of the code.  At the concrete
payload `bodyFullBadTs` (one fully-populated record whose timestamp does
not parse), `handleEmail` returns a summary instead of any
`InvalidTimestamp` failure, so no report of the program's failures can
realize the two distinct fatal kinds the claim requires; the code's only
failure is the single generic runtime `TypeError`. -/
theorem c1_no_distinct_failure_kinds : ¬ distinctFatalFailureKinds := by
  rintro ⟨report, -, h2⟩
  obtain ⟨e, he, -⟩ := h2 bodyFullBadTs (decodeRecord recordFullBadTs) [] rfl rfl
  rw [show handleEmail bodyFullBadTs = .ok (summarize (decodeRecord recordFullBadTs))
    from rfl] at he
  exact Except.noConfusion he

/-- C1 (amended): for every input payload whose `Records` field decodes to
an empty list, `handleEmail` does fail and returns no summary — but the
failure is the generic JavaScript `TypeError` raised by reading `ses` of
the undefined `Records[0]` (the program's only failure mode), not a
distinct reportable `EmptyRecordSet` kind. -/
theorem c1_empty_records_generic_failure (body : Json)
    (h : (decodeRoot body).Records = []) :
    handleEmail body = .error JsError.typeError := by
  simp [handleEmail, h]

/-- C1 (witness): the amended C1 at the concrete payload whose `Records`
is the empty list. -/
theorem c1_witness :
    (decodeRoot bodyEmptyRecords).Records = [] ∧
    handleEmail bodyEmptyRecords = .error JsError.typeError :=
  ⟨rfl, c1_empty_records_generic_failure bodyEmptyRecords rfl⟩

/-- C2 (counterexample): claim C2 is false of the code.  At the concrete
payload `bodyFullBadTs`, whose decoded first record has the unparseable
timestamp "not-a-date", `handleEmail` returns a summary rather than
failing. -/
theorem c2_no_invalid_timestamp_failure : ¬ invalidTimestampAborts := by
  intro h
  obtain ⟨e, he⟩ := h bodyFullBadTs (decodeRecord recordFullBadTs) [] rfl rfl
  rw [show handleEmail bodyFullBadTs = .ok (summarize (decodeRecord recordFullBadTs))
    from rfl] at he
  exact Except.noConfusion he

/-- C2 (amended): when the decoded first record's `mail.timestamp` does
not parse as a date/time, `handleEmail` still returns a summary, and that
summary's month field is the garbage literal "Invalid Date". -/
theorem c2_invalid_timestamp_garbage_month (body : Json) (r : Record)
    (rest : List Record) (h : (decodeRoot body).Records = r :: rest)
    (hts : parseTimestampMonth r.ses.mail.timestamp = none) :
    handleEmail body = .ok (summarize r) ∧ (summarize r).mes = "Invalid Date" := by
  refine ⟨by simp [handleEmail, h], ?_⟩
  simp [summarize, jsMonthLong, hts]

/-- C2 (witness): the amended C2 at the concrete payload with timestamp
"not-a-date". -/
theorem c2_witness :
    handleEmail bodyFullBadTs = .ok (summarize (decodeRecord recordFullBadTs)) ∧
    (summarize (decodeRecord recordFullBadTs)).mes = "Invalid Date" :=
  c2_invalid_timestamp_garbage_month bodyFullBadTs (decodeRecord recordFullBadTs) [] rfl rfl

/-- C3: a missing key, a null value, or a wrong-shape value never aborts
decoding; the field gets its documented default — for each scalar kind the
coercer yields the default, a malformed or absent nested `Mail` decodes to
the all-default `Mail` instance (empty strings, empty lists, false), and,
end to end, the payload whose record lacks the whole `mail` object yields a
summary with sender "" and recipients []. -/
theorem c3_defaults_absorbed (kvs : List (String × Json))
    (hmail : jget kvs "mail" = none ∨ jget kvs "mail" = some Json.null) :
    (∀ d : String, coerceStr none d = d ∧ coerceStr (some Json.null) d = d ∧
      ∀ v : Json, (∀ s, v ≠ Json.str s) → coerceStr (some v) d = d) ∧
    (∀ d : Int, coerceNum none d = d ∧ coerceNum (some Json.null) d = d ∧
      ∀ v : Json, (∀ n, v ≠ Json.num n) → coerceNum (some v) d = d) ∧
    (∀ d : Bool, coerceBool none d = d ∧ coerceBool (some Json.null) d = d ∧
      ∀ v : Json, (∀ b, v ≠ Json.bool b) → coerceBool (some v) d = d) ∧
    (∀ v : Json, (∀ o, v ≠ Json.obj o) → decodeMail v = decodeMail Json.null) ∧
    decodeMail Json.null =
      { timestamp := "", source := "", messageId := "", destination := [],
        headersTruncated := false, headers := [],
        commonHeaders := { returnPath := "", from_ := [], date := "", to_ := [],
                           messageId := "", subject := "" } } ∧
    (decodeSes (Json.obj kvs)).mail = decodeMail Json.null ∧
    handleEmail bodyOneEmptyRecord =
      .ok { spam := false, virus := false, dns := false, mes := "Invalid Date",
            retrasado := false, emisor := "", receptor := [] } := by
  refine ⟨?_, ?_, ?_, ?_, rfl, ?_, rfl⟩
  · intro d
    refine ⟨rfl, rfl, ?_⟩
    intro v hv
    cases v with
    | str s => exact absurd rfl (hv s)
    | null => rfl
    | bool b => rfl
    | num n => rfl
    | arr xs => rfl
    | obj o => rfl
  · intro d
    refine ⟨rfl, rfl, ?_⟩
    intro v hv
    cases v with
    | num n => exact absurd rfl (hv n)
    | null => rfl
    | bool b => rfl
    | str s => rfl
    | arr xs => rfl
    | obj o => rfl
  · intro d
    refine ⟨rfl, rfl, ?_⟩
    intro v hv
    cases v with
    | bool b => exact absurd rfl (hv b)
    | null => rfl
    | num n => rfl
    | str s => rfl
    | arr xs => rfl
    | obj o => rfl
  · intro v hv
    cases v with
    | obj o => exact absurd rfl (hv o)
    | null => rfl
    | bool b => rfl
    | num n => rfl
    | str s => rfl
    | arr xs => rfl
  · rcases hmail with h | h <;> simp [decodeSes, objFields, h]

/-- C3 (witness): the defaulting behaviour at the concrete empty mapping
and the concrete payload of end-to-end scenario C. -/
theorem c3_witness :
    (decodeSes (Json.obj [])).mail = decodeMail Json.null ∧
    handleEmail bodyOneEmptyRecord =
      .ok { spam := false, virus := false, dns := false, mes := "Invalid Date",
            retrasado := false, emisor := "", receptor := [] } :=
  ⟨(c3_defaults_absorbed [] (Or.inl rfl)).2.2.2.2.2.1,
   (c3_defaults_absorbed [] (Or.inl rfl)).2.2.2.2.2.2⟩

/-- C4: a list field that is absent or not a list decodes to the empty
list (never a missing value), and a list field decodes element by element
— the output has the same length and index order as the input, with each
invalid element replaced in place by its per-element default rather than
dropped. -/
theorem c4_list_fields (v : Json) (hv : ∀ xs, v ≠ Json.arr xs) (xs : List Json) :
    coerceStrList none = [] ∧
    coerceStrList (some v) = [] ∧
    coerceNestedList decodeRecord none = [] ∧
    coerceNestedList decodeRecord (some v) = [] ∧
    (decodeRoot (Json.obj [("Records", v)])).Records = [] ∧
    (decodeMail (Json.obj [("destination", v)])).destination = [] ∧
    coerceStrList (some (Json.arr xs)) = xs.map coerceStrElem ∧
    (coerceStrList (some (Json.arr xs))).length = xs.length ∧
    (decodeRoot (Json.obj [("Records", Json.arr xs)])).Records = xs.map decodeRecord ∧
    (decodeMail (Json.obj [("destination", Json.arr xs)])).destination =
      xs.map coerceStrElem ∧
    coerceStrElem Json.null = "" ∧
    decodeRecord Json.null = decodeRecord (Json.obj []) := by
  have hstr : coerceStrList (some v) = [] := by
    cases v with
    | arr l => exact absurd rfl (hv l)
    | null => rfl
    | bool b => rfl
    | num n => rfl
    | str s => rfl
    | obj o => rfl
  have hnested : coerceNestedList decodeRecord (some v) = [] := by
    cases v with
    | arr l => exact absurd rfl (hv l)
    | null => rfl
    | bool b => rfl
    | num n => rfl
    | str s => rfl
    | obj o => rfl
  refine ⟨rfl, hstr, rfl, hnested, hnested, hstr, rfl, ?_, rfl, rfl, rfl, rfl⟩
  show (xs.map coerceStrElem).length = xs.length
  simp

/-- C4 (witness): the list rules at a concrete non-list value and a
concrete mixed-validity list (the invalid element defaults in place). -/
theorem c4_witness :
    (decodeRoot (Json.obj [("Records", Json.str "x")])).Records = [] ∧
    coerceStrList (some (Json.arr [Json.str "a", Json.null])) = ["a", ""] := by
  have h := c4_list_fields (Json.str "x") (fun xs hx => Json.noConfusion hx)
    [Json.str "a", Json.null]
  exact ⟨h.2.2.2.2.1, h.2.2.2.2.2.2.1⟩

/-- C5: the summary's `dns` flag is true iff the first record's spf, dkim
and dmarc verdict statuses are all exactly "PASS"; a verdict substructure
absent from the input decodes to the default empty status, and an empty
spf status forces `dns` to be false. -/
theorem c5_dns_conjunction (r : Record) (kvs : List (String × Json))
    (habsent : jget kvs "spfVerdict" = none) :
    ((summarize r).dns = true ↔
      (r.ses.receipt.spfVerdict.status = "PASS" ∧
       r.ses.receipt.dkimVerdict.status = "PASS" ∧
       r.ses.receipt.dmarcVerdict.status = "PASS")) ∧
    (decodeReceipt (Json.obj kvs)).spfVerdict.status = "" ∧
    (r.ses.receipt.spfVerdict.status = "" → (summarize r).dns = false) := by
  refine ⟨?_, ?_, ?_⟩
  · simp [summarize, Bool.and_eq_true, and_assoc]
  · simp only [jget] at habsent
    simp [decodeReceipt, objFields, decodeVerdict, coerceStr, jget, List.lookup,
      habsent]
  · intro h
    simp [summarize, h]

/-- C5 (witness): the `dns` facts at the all-default record and the empty
mapping. -/
theorem c5_witness :
    (decodeReceipt (Json.obj [])).spfVerdict.status = "" ∧
    (summarize (decodeRecord Json.null)).dns = false := by
  have h := c5_dns_conjunction (decodeRecord Json.null) [] rfl
  exact ⟨h.2.1, h.2.2 rfl⟩

/-- C6: the summary's `retrasado` (delayed) flag is true iff the first
record's `receipt.processingTimeMillis` is strictly greater than 1000; at
exactly 1000 it is false and at 1001 it is true, end to end through the
decoder. -/
theorem c6_delayed_boundary (r : Record) :
    ((summarize r).retrasado = true ↔ r.ses.receipt.processingTimeMillis > 1000) ∧
    (summarize (decodeRecord (Json.obj [("ses", Json.obj [("receipt",
      Json.obj [("processingTimeMillis", Json.num 1000)])])]))).retrasado = false ∧
    (summarize (decodeRecord (Json.obj [("ses", Json.obj [("receipt",
      Json.obj [("processingTimeMillis", Json.num 1001)])])]))).retrasado = true := by
  refine ⟨?_, by decide, by decide⟩
  simp [summarize]

/-- C7: the summary's sender is the substring of `mail.source` strictly
before its first at-sign (the whole string when none occurs), and the
recipients are the same rule applied to `mail.destination` element by
element, preserving length and order. -/
theorem c7_local_parts (r : Record) :
    isLocalPart r.ses.mail.source (summarize r).emisor ∧
    List.Forall₂ isLocalPart r.ses.mail.destination (summarize r).receptor ∧
    (summarize r).receptor.length = r.ses.mail.destination.length := by
  refine ⟨jsSplitHead_isLocalPart r.ses.mail.source, ?_, ?_⟩
  · exact forall2_map_localPart r.ses.mail.destination
  · show (r.ses.mail.destination.map jsSplitHead).length = _
    simp

/-- C8: the summary depends on no record beyond the first — two payloads
whose decoded `Records` lists share the element at index 0 produce
identical outcomes. -/
theorem c8_first_record_determines (b1 b2 : Json) (r : Record)
    (t1 t2 : List Record) (h1 : (decodeRoot b1).Records = r :: t1)
    (h2 : (decodeRoot b2).Records = r :: t2) :
    handleEmail b1 = handleEmail b2 := by
  simp [handleEmail, h1, h2]

/-- C8 (witness): a one-record payload and a two-record payload sharing
the first record produce the same outcome. -/
theorem c8_witness : handleEmail bodyOneEmptyRecord = handleEmail bodyTwoRecords :=
  c8_first_record_determines bodyOneEmptyRecord bodyTwoRecords
    (decodeRecord (Json.obj [])) []
    [decodeRecord (Json.obj [("eventVersion", Json.str "2")])] rfl rfl

/-- C9: decoding is round-trip stable — decoding the field-for-field
re-serialization of a decoded instance yields the identical instance, so
decode then serialize then decode equals decode on every input. -/
theorem c9_decode_roundtrip (v : Json) :
    decodeRoot (serializeRoot (decodeRoot v)) = decodeRoot v :=
  decode_serialize_root (decodeRoot v)

/-- C10: every summary the program produces has a sender containing no
at-sign, and every element of its recipients list contains no at-sign. -/
theorem c10_no_at_in_summary (body : Json) (dto : ResponseDTO)
    (h : handleEmail body = .ok dto) :
    '@' ∉ dto.emisor.toList ∧ ∀ s ∈ dto.receptor, '@' ∉ s.toList := by
  cases hrec : (decodeRoot body).Records with
  | nil => simp [handleEmail, hrec] at h
  | cons r t =>
    simp [handleEmail, hrec] at h
    subst h
    constructor
    · intro hmem
      exact jsSplitHead_no_at r.ses.mail.source '@' hmem rfl
    · intro s hs hmem
      obtain ⟨a, -, rfl⟩ := List.mem_map.mp hs
      exact jsSplitHead_no_at a '@' hmem rfl

/-- C10 (witness): the sender of the summary of the concrete
fully-populated record contains no at-sign. -/
theorem c10_witness :
    '@' ∉ (summarize (decodeRecord recordFullBadTs)).emisor.toList :=
  (c10_no_at_in_summary bodyFullBadTs (summarize (decodeRecord recordFullBadTs)) rfl).1

end EmailSummary
